/-
Verification of the LocalChat/NovuChat Flask application (src/app.py).

This file gives a shallow embedding, in Lean 4, of the data model and of the
HTTP handlers of `src/app.py` that the verified properties speak about:

  * the SQLAlchemy rows `Business`, `User`, `Lead` become Lean structures and
    the database becomes explicit lists of rows threaded through the handlers;
  * `datetime.utcnow()` becomes an explicit `now : Nat` parameter;
  * the random `secrets.token_urlsafe(48)` becomes an explicit parameter;
  * outbound HTTP effects (the Resend email API, the OpenAI chat-completion
    API) become oracle parameters describing the outcome the handler would
    observe, plus explicit lists of attempted sends and console-log lines;
  * Python exceptions that a handler can catch are modelled with `Except`;
    `send_email` catches every exception internally (its whole body is a
    `try/except` whose handler only prints), so it is modelled as a total
    function that returns log lines and can never fail;
  * Python string trimming (`.strip()`) is `pyStrip` (drop leading and
    trailing whitespace characters), lower-casing is `Char.toLower` applied
    character-wise, and `str.isalnum()` is `Char.isAlphanum`; written over
    `String.data` so that every definition evaluates by kernel reduction.
    `Char.toLower` and `Char.isAlphanum` agree with Python's Unicode-aware
    `str.lower`/`str.isalnum` exactly on ASCII strings and diverge outside
    ASCII, so the one theorem whose truth depends on the character classes
    (the slug character-set property) quantifies over ASCII names only.

Handlers are translated line by line from the source; where the source file
has an obvious stray indentation artifact (the `finally:` of
`forgot_password`, the `else:` of `chat`, the first query of `dashboard`)
the embedding follows the evident control flow of the surrounding block.
-/
import Mathlib

namespace LocalChat

/-- Python `str.strip()`: drop leading and trailing whitespace. -/
def pyStrip (s : String) : String :=
  ⟨((s.data.dropWhile Char.isWhitespace).reverse.dropWhile Char.isWhitespace).reverse⟩

/-- Python `str.lower()`, character-wise.  `Char.toLower` agrees with
Python exactly on ASCII strings; Python additionally lower-cases non-ASCII
letters, which this model leaves unchanged — theorems whose truth depends on
the character classes therefore quantify over ASCII inputs only. -/
def pyLower (s : String) : String :=
  ⟨s.data.map Char.toLower⟩

/-- Row of the `businesses` table (src/app.py, class Business). -/
structure Business where
  business_id : String
  name : String
  hours : String
  services : String
  pricing : String
  location : String
  contact : String
  faqs : String
  blurb : String
  booking_url : String
  address : String
  category : String
deriving Repr, DecidableEq

/-- Row of the `users` table (src/app.py, class User).  `reset_token` and
`reset_expires_at` are nullable columns, hence `Option`. -/
structure User where
  id : Nat
  email : String
  password_hash : String
  role : String
  business_id : Option String
  is_active : Bool
  reset_token : Option String
  reset_expires_at : Option Nat
deriving Repr, DecidableEq

/-- Row of the `leads` table (src/app.py, class Lead).  `created_at` carries
the `datetime.utcnow` default applied at insertion time. -/
structure Lead where
  business_id : String
  name : String
  email : String
  phone : String
  message : String
  created_at : Nat
deriving Repr, DecidableEq

/-- The relational store: the three tables, plus the autoincrement counter
that the ORM uses to assign `User.id` primary keys. -/
structure DB where
  businesses : List Business
  users : List User
  leads : List Lead
  next_user_id : Nat
deriving Repr, DecidableEq

/-- Model of `werkzeug.security.generate_password_hash`: an injective tagging
of the password.  Only the roundtrip with `check_password_hash` matters. -/
def generate_password_hash (password : String) : String :=
  "pbkdf2:" ++ password

/-- Model of `werkzeug.security.check_password_hash`. -/
def check_password_hash (hash password : String) : Bool :=
  hash = generate_password_hash password

/-- Environment configuration read at module load (src/app.py lines 33-40). -/
structure EmailCfg where
  resend_api_key : String
  email_from_address : String
  admin_email : String
deriving Repr, DecidableEq

/-- One attempted outbound email (the payload of the HTTP POST to the email
provider in `send_email`). -/
structure EmailMsg where
  to_email : String
  subject : String
  text_body : String
deriving Repr, DecidableEq

/-- Outcome of one outbound email HTTP call, as observed by `send_email`:
the provider answered with some status code, or `requests.post` raised. -/
inductive EmailOutcome where
  | delivered (status : Nat)
  | raised
deriving Repr, DecidableEq

/-- Result of `send_email`: the attempted provider sends and the console-log
lines it printed. -/
structure SendResult where
  sent : List EmailMsg
  logs : List String
deriving Repr, DecidableEq

/-- Embedding of `send_email` (src/app.py lines 176-199).  When the provider
key or the from-address is unset it only logs.  Otherwise it attempts the
send; a status of 300 or above is logged, and an exception raised by
`requests.post` is caught and logged — the Python function's whole body is
wrapped in `try/except Exception`, so it never raises to its caller, which
is why this model is a total function. -/
def send_email (cfg : EmailCfg) (o : EmailOutcome) (to_email subject text_body : String) :
    SendResult :=
  if cfg.resend_api_key = "" ∨ cfg.email_from_address = "" then
    { sent := [], logs := ["[EMAIL DISABLED] " ++ subject ++ " -> " ++ to_email, text_body] }
  else
    match o with
    | .delivered status =>
        { sent := [⟨to_email, subject, text_body⟩],
          logs := if 300 ≤ status then ["[EMAIL ERROR]"] else [] }
    | .raised =>
        { sent := [⟨to_email, subject, text_body⟩], logs := ["[EMAIL EXCEPTION]"] }

/-- The `db.query(Business).filter(Business.business_id == x).first()` lookup
used by the handlers. -/
def find_business (db : DB) (bid : String) : Option Business :=
  db.businesses.find? (fun b => b.business_id = bid)

/-- The `db.query(User).filter(User.email == x).first()` lookup. -/
def find_user_by_email (db : DB) (email : String) : Option User :=
  db.users.find? (fun u => u.email = email)

/-- ORM row mutation: the handlers fetch one row with `.first()` and mutate
its fields in place, then commit.  This updates the first row matching the
query predicate, leaving every other row untouched. -/
def update_matching_row (users : List User) (p : User → Bool) (f : User → User) : List User :=
  match users with
  | [] => []
  | u :: rest => if p u then f u :: rest else u :: update_matching_row rest p f

/-- JSON body of a request to `POST /lead`: `data.get(k)` yields `None` for a
missing key, hence `Option` fields. -/
structure LeadRequest where
  business_id : Option String
  name : Option String
  email : Option String
  phone : Option String
  message : Option String
deriving Repr, DecidableEq

/-- JSON response of `POST /lead` together with its HTTP status. -/
structure JsonResp where
  ok : Bool
  error : Option String
  status : Nat
deriving Repr, DecidableEq

/-- Result of the `/lead` handler: response, database after the request,
attempted provider sends, console-log lines. -/
structure LeadResult where
  resp : JsonResp
  db : DB
  sent : List EmailMsg
  logs : List String
deriving Repr, DecidableEq

/-- Extraction of the owner notification address in the `/lead` handler
(src/app.py lines 3010-3014): the first comma-or-whitespace separated token
of `Business.contact` that contains an `@`.  Python's `str.split()` with no
argument drops empty tokens, hence the filter. -/
def extract_contact_email (contact : String) : Option String :=
  (((((contact.data.map (fun c => if c = ',' then ' ' else c)).splitOnP
      Char.isWhitespace).filter (fun t => t ≠ [])).find?
      (fun t => t.contains '@')).map (fun t => pyStrip ⟨t⟩))

/-- Embedding of the `/lead` handler (src/app.py lines 2973-3023).  `now` is
`datetime.utcnow()` at insertion time; `oracle` gives the outcome of the
n-th outbound email call of the request. -/
def lead (db : DB) (cfg : EmailCfg) (now : Nat) (oracle : Nat → EmailOutcome)
    (req : LeadRequest) : LeadResult :=
  let business_id := pyStrip (req.business_id.getD "")
  let name := pyStrip (req.name.getD "")
  let email := pyStrip (req.email.getD "")
  let phone := pyStrip (req.phone.getD "")
  let message := pyStrip (req.message.getD "")
  if business_id = "" ∨ email = "" then
    { resp := ⟨false, some "Missing business_id or email.", 400⟩, db := db, sent := [], logs := [] }
  else
    match find_business db business_id with
    | none =>
        { resp := ⟨false, some "Business not found.", 404⟩, db := db, sent := [], logs := [] }
    | some biz =>
        let lead_obj : Lead :=
          { business_id := business_id, name := name, email := email,
            phone := phone, message := message, created_at := now }
        let db1 : DB := { db with leads := db.leads ++ [lead_obj] }
        let subject := "New lead from " ++ biz.name
        let body :=
          "You received a new lead from your NovuChat widget.\n\nName: " ++ name ++
          "\nEmail: " ++ email ++ "\nPhone: " ++ phone ++ "\n\nMessage:\n" ++ message ++ "\n\n"
        let owner_send : SendResult :=
          if biz.contact ≠ "" then
            match extract_contact_email biz.contact with
            | some contact_email =>
                if contact_email ≠ "" then send_email cfg (oracle 0) contact_email subject body
                else { sent := [], logs := [] }
            | none => { sent := [], logs := [] }
          else { sent := [], logs := [] }
        let admin_send : SendResult :=
          if cfg.admin_email ≠ "" then
            send_email cfg (oracle 1) cfg.admin_email ("[Copy] " ++ subject) body
          else { sent := [], logs := [] }
        { resp := ⟨true, none, 200⟩, db := db1,
          sent := owner_send.sent ++ admin_send.sent,
          logs := owner_send.logs ++ admin_send.logs }

/-- The demo tenant seeded by `init_db`, with the profile fields not needed
by any claim left empty. -/
def demoBiz : Business :=
  { business_id := "demo", name := "Demo Barber Shop", hours := "", services := "",
    pricing := "", location := "", contact := "hello@demobarber.com", faqs := "",
    blurb := "", booking_url := "", address := "", category := "" }

/-- A tenant whose `contact` field holds a phone number and no email address. -/
def phoneOnlyBiz : Business :=
  { business_id := "shop", name := "Phone Shop", hours := "", services := "",
    pricing := "", location := "", contact := "(555) 555-1234", faqs := "",
    blurb := "", booking_url := "", address := "", category := "" }

/-- The business-role owner account linked to `phoneOnlyBiz`. -/
def shopOwner : User :=
  { id := 2, email := "owner@example.com", password_hash := generate_password_hash "pw",
    role := "business", business_id := some "shop", is_active := true,
    reset_token := none, reset_expires_at := none }

/-- A store holding only the demo tenant. -/
def demoDb : DB := { businesses := [demoBiz], users := [], leads := [], next_user_id := 1 }

/-- A store holding the phone-only tenant and its linked owner account. -/
def shopDb : DB := { businesses := [phoneOnlyBiz], users := [shopOwner], leads := [], next_user_id := 3 }

/-- Email configuration with provider credentials present and no admin copy. -/
def cfgProvider : EmailCfg :=
  { resend_api_key := "key", email_from_address := "from@example.com", admin_email := "" }

/-- A well-formed lead submission for the demo tenant. -/
def c1Req : LeadRequest :=
  { business_id := some "demo", name := some " Ann ", email := some "ann@example.com",
    phone := none, message := some "hi" }

/-- C1: for every `POST /lead` whose `business_id` names an existing Business
and whose required fields are non-empty after trimming, exactly one Lead row
is appended — with the submitted (trimmed) fields and `created_at` set to the
insertion-time clock — the response reports success, and both the stored row
and the response are identical for every notification outcome: a notification
failure never rolls back or suppresses the insert. -/
theorem lead_valid_creates_one_row (db : DB) (cfg : EmailCfg) (now : Nat)
    (req : LeadRequest) (biz : Business)
    (hbid : pyStrip (req.business_id.getD "") ≠ "")
    (hemail : pyStrip (req.email.getD "") ≠ "")
    (hbiz : find_business db (pyStrip (req.business_id.getD "")) = some biz) :
    ∀ oracle oracle' : Nat → EmailOutcome,
      (lead db cfg now oracle req).resp = ⟨true, none, 200⟩ ∧
      (lead db cfg now oracle req).db =
        { db with leads := db.leads ++
            [{ business_id := pyStrip (req.business_id.getD ""),
               name := pyStrip (req.name.getD ""),
               email := pyStrip (req.email.getD ""),
               phone := pyStrip (req.phone.getD ""),
               message := pyStrip (req.message.getD ""),
               created_at := now }] } ∧
      (lead db cfg now oracle req).db = (lead db cfg now oracle' req).db ∧
      (lead db cfg now oracle req).resp = (lead db cfg now oracle' req).resp := by
  intro oracle oracle'
  have h' : ¬(pyStrip (req.business_id.getD "") = "" ∨ pyStrip (req.email.getD "") = "") := by
    simp [hbid, hemail]
  simp only [lead, hbiz, if_neg h']
  refine ⟨?_, ?_, ?_, ?_⟩ <;> trivial

/-- Witness for C1: the hypotheses hold at the demo store and a concrete
request, with one oracle delivering and the other raising. -/
theorem lead_valid_creates_one_row_witness :
    (pyStrip (c1Req.business_id.getD "") ≠ "" ∧
     find_business demoDb (pyStrip (c1Req.business_id.getD "")) = some demoBiz) ∧
    (lead demoDb cfgProvider 0 (fun _ => EmailOutcome.delivered 500) c1Req).resp =
      ⟨true, none, 200⟩ := by
  refine ⟨⟨by decide, by decide⟩, ?_⟩
  exact (lead_valid_creates_one_row demoDb cfgProvider 0 c1Req demoBiz (by decide)
    (by decide) (by decide) (fun _ => EmailOutcome.delivered 500)
    (fun _ => EmailOutcome.raised)).1

/-- A lead submission for the demo tenant whose `name` is blank. -/
def blankNameReq : LeadRequest :=
  { business_id := some "demo", name := some "  ", email := some "ann@example.com",
    phone := none, message := none }

/-- Counterexample to C2 as stated: a `POST /lead` with a blank `name` (but a
present email) is not rejected — the handler answers success and inserts a
Lead row with an empty name, because src/app.py line 2982 only requires
`business_id` and `email`. -/
theorem lead_blank_name_still_inserts :
    (lead demoDb cfgProvider 0 (fun _ => EmailOutcome.delivered 200) blankNameReq).resp =
      ⟨true, none, 200⟩ ∧
    (lead demoDb cfgProvider 0 (fun _ => EmailOutcome.delivered 200) blankNameReq).db.leads.length =
      demoDb.leads.length + 1 := by
  exact ⟨rfl, rfl⟩

/-- C2 (amended): for every `POST /lead` in which `business_id` or `email` is
missing or blank after trimming, the response is a 400 validation error naming
the missing fields, and the store is unchanged — no Lead row is created.  (A
missing or blank `name` does not cause rejection: only `business_id` and
`email` are required.) -/
theorem lead_missing_email_rejected (db : DB) (cfg : EmailCfg) (now : Nat)
    (oracle : Nat → EmailOutcome) (req : LeadRequest)
    (h : pyStrip (req.business_id.getD "") = "" ∨ pyStrip (req.email.getD "") = "") :
    lead db cfg now oracle req =
      { resp := ⟨false, some "Missing business_id or email.", 400⟩,
        db := db, sent := [], logs := [] } := by
  simp only [lead, if_pos h]

/-- Witness for C2 (amended): a request with a blank email is rejected and the
demo store keeps its (empty) lead table. -/
theorem lead_missing_email_rejected_witness :
    lead demoDb cfgProvider 0 (fun _ => EmailOutcome.delivered 200)
        { business_id := some "demo", name := some "Ann", email := some " ",
          phone := none, message := none } =
      { resp := ⟨false, some "Missing business_id or email.", 400⟩,
        db := demoDb, sent := [], logs := [] } :=
  lead_missing_email_rejected demoDb cfgProvider 0 (fun _ => EmailOutcome.delivered 200)
    _ (by decide)

/-- A well-formed lead submission for the phone-only tenant. -/
def shopReq : LeadRequest :=
  { business_id := some "shop", name := some "Bob", email := some "bob@example.com",
    phone := none, message := some "call me" }

/-- Counterexample to C9 as stated: the handler never looks at the linked
business-role User to find the notification address.  Here the linked owner
account exists (email `owner@example.com`), provider credentials are present,
yet no notification email is attempted at all, because the Business's
`contact` field contains no `@` token — the address is extracted from
`Business.contact`, not from the User row. -/
theorem lead_owner_address_not_from_user :
    (∃ u ∈ shopDb.users, u.role = "business" ∧ u.business_id = some "shop" ∧
        u.email = "owner@example.com") ∧
    (lead shopDb cfgProvider 0 (fun _ => EmailOutcome.delivered 200) shopReq).resp =
      ⟨true, none, 200⟩ ∧
    (lead shopDb cfgProvider 0 (fun _ => EmailOutcome.delivered 200) shopReq).sent = [] := by
  exact ⟨⟨shopOwner, by decide, rfl, rfl, rfl⟩, rfl, rfl⟩

/-- Attempted sends of `send_email` when provider credentials are present:
exactly the one requested message, whatever the provider outcome. -/
theorem send_email_sent_of_configured (cfg : EmailCfg) (o : EmailOutcome)
    (to_email subject text_body : String)
    (h1 : cfg.resend_api_key ≠ "") (h2 : cfg.email_from_address ≠ "") :
    (send_email cfg o to_email subject text_body).sent = [⟨to_email, subject, text_body⟩] := by
  cases o <;> simp [send_email, h1, h2]

/-- C9 (amended): for every successful lead submission with provider
credentials configured, the owner notification address is the one extracted
from the Business's `contact` field (first comma/whitespace token containing
an `@`), not the linked User's email: when such a token exists that address
receives the lead notification, when none exists no owner email is attempted,
and the fixed admin address separately receives a copy exactly when it is
configured. -/
theorem lead_notification_recipients (db : DB) (cfg : EmailCfg) (now : Nat)
    (oracle : Nat → EmailOutcome) (req : LeadRequest) (biz : Business)
    (hbid : pyStrip (req.business_id.getD "") ≠ "")
    (hemail : pyStrip (req.email.getD "") ≠ "")
    (hbiz : find_business db (pyStrip (req.business_id.getD "")) = some biz)
    (h1 : cfg.resend_api_key ≠ "") (h2 : cfg.email_from_address ≠ "") :
    (∀ ce, biz.contact ≠ "" → extract_contact_email biz.contact = some ce → ce ≠ "" →
      (lead db cfg now oracle req).sent.map EmailMsg.to_email =
        [ce] ++ (if cfg.admin_email ≠ "" then [cfg.admin_email] else [])) ∧
    ((biz.contact = "" ∨ extract_contact_email biz.contact = none) →
      (lead db cfg now oracle req).sent.map EmailMsg.to_email =
        (if cfg.admin_email ≠ "" then [cfg.admin_email] else [])) := by
  have h' : ¬(pyStrip (req.business_id.getD "") = "" ∨ pyStrip (req.email.getD "") = "") := by
    simp [hbid, hemail]
  constructor
  · intro ce hc hce hne
    simp only [lead, hbiz, if_neg h', if_pos hc, hce, if_pos hne]
    rw [List.map_append, send_email_sent_of_configured cfg _ _ _ _ h1 h2]
    by_cases ha : cfg.admin_email ≠ ""
    · rw [if_pos ha, if_pos ha, send_email_sent_of_configured cfg _ _ _ _ h1 h2]
      simp
    · rw [if_neg ha, if_neg ha]
      simp
  · intro hc
    simp only [lead, hbiz, if_neg h']
    have howner :
        (if biz.contact ≠ "" then
            match extract_contact_email biz.contact with
            | some contact_email =>
                if contact_email ≠ "" then
                  send_email cfg (oracle 0) contact_email ("New lead from " ++ biz.name)
                    ("You received a new lead from your NovuChat widget.\n\nName: " ++
                      pyStrip (req.name.getD "") ++ "\nEmail: " ++ pyStrip (req.email.getD "") ++
                      "\nPhone: " ++ pyStrip (req.phone.getD "") ++ "\n\nMessage:\n" ++
                      pyStrip (req.message.getD "") ++ "\n\n")
                else { sent := [], logs := [] }
            | none => { sent := [], logs := [] }
          else ({ sent := [], logs := [] } : SendResult)) = { sent := [], logs := [] } := by
      rcases hc with hc | hc
      · rw [if_neg (by simp [hc])]
      · by_cases hb : biz.contact ≠ ""
        · rw [if_pos hb, hc]
        · rw [if_neg hb]
    rw [howner]
    by_cases ha : cfg.admin_email ≠ ""
    · rw [if_pos ha, if_pos ha]
      simp [send_email_sent_of_configured cfg _ _ _ _ h1 h2]
    · rw [if_neg ha, if_neg ha]
      simp

/-- Witness for C9 (amended): at the demo store, whose contact field holds
`hello@demobarber.com`, that extracted address is the one notified. -/
theorem lead_notification_recipients_witness :
    extract_contact_email demoBiz.contact = some "hello@demobarber.com" ∧
    (lead demoDb cfgProvider 0 (fun _ => EmailOutcome.raised) c1Req).sent.map EmailMsg.to_email =
      ["hello@demobarber.com"] ++
        (if cfgProvider.admin_email ≠ "" then [cfgProvider.admin_email] else []) := by
  refine ⟨by decide, ?_⟩
  exact (lead_notification_recipients demoDb cfgProvider 0 (fun _ => EmailOutcome.raised)
    c1Req demoBiz (by decide) (by decide) (by decide) (by decide) (by decide)).1
    "hello@demobarber.com" (by decide) (by decide) (by decide)

/-- JSON body of a request to `POST /chat`. -/
structure ChatRequest where
  business_id : Option String
  message : Option String
deriving Repr, DecidableEq

/-- Outcome of the outbound OpenAI chat-completion call, as observed by the
`/chat` handler: a 2xx response whose parsed message content is `text`, an
HTTP error status on which `resp.raise_for_status()` raises, or a network
error / timeout raised by `requests.post` itself. -/
inductive UpstreamResult where
  | success (text : String)
  | httpError (status : Nat)
  | netError
deriving Repr, DecidableEq

/-- JSON reply of `POST /chat` with its HTTP status. -/
structure ChatResp where
  reply : String
  status : Nat
deriving Repr, DecidableEq

/-- Result of the `/chat` handler: the JSON reply, whether the upstream LLM
call was attempted, the chat-audit log lines appended, and the server-side
error log lines printed. -/
structure ChatResult where
  resp : ChatResp
  llm_called : Bool
  chat_log : List String
  err_log : List String
deriving Repr, DecidableEq

/-- The deterministic system instruction block of the `/chat` handler
(src/app.py lines 2901-2930), embedding the profile fields verbatim. -/
def render_system_prompt (biz : Business) : String :=
  pyStrip
    ("\nYou are a helpful, concise AI assistant for the business \"" ++ biz.name ++ "\".\n\n" ++
     "You MUST follow these rules:\n" ++
     "- Answer ONLY using the data provided below (Hours, Services, Pricing, Location, Contact, FAQs, Booking URL).\n" ++
     "- If the answer is not clearly supported by this data, say you are not sure and ask the user to contact the business directly.\n" ++
     "- Do NOT invent prices, policies, availability, discounts, or guarantees.\n" ++
     "- Keep answers brief and clear (usually under 5 sentences) unless the user asks for more detail.\n" ++
     "- If the user asks about booking or making an appointment, direct them to the booking link or contact information.\n\n" ++
     "BUSINESS PROFILE\n----------------\n" ++
     "Name: " ++ biz.name ++ "\nLocation: " ++ biz.location ++ "\nAddress: " ++ biz.address ++
     "\nContact: " ++ biz.contact ++ "\nBooking URL: " ++ biz.booking_url ++
     "\n\nHours:\n" ++ biz.hours ++ "\n\nServices:\n" ++ biz.services ++
     "\n\nPricing:\n" ++ biz.pricing ++ "\n\nFAQs:\n" ++ biz.faqs ++ "\n")

/-- Inner body of the `/chat` handler (src/app.py lines 2884-2967).  An
`Except.error` is a Python exception propagating out of the body to the
handler's outer `try/except`; its payload pairs the exception text with
whether the upstream call had been attempted by then. -/
def chat_body (db : DB) (api_key : String) (upstream : UpstreamResult) (now_iso : String)
    (req : ChatRequest) : Except (String × Bool) (ChatResp × Bool × List String) :=
  let business_id := pyStrip (req.business_id.getD "")
  let user_message := pyStrip (req.message.getD "")
  if business_id = "" ∨ user_message = "" then
    .ok (⟨"Missing business_id or message.", 400⟩, false, [])
  else
    match find_business db business_id with
    | none => .ok (⟨"Business not found.", 404⟩, false, [])
    | some biz =>
        let system_prompt := render_system_prompt biz
        if api_key = "" then
          let reply_text := "AI is not configured yet."
          .ok (⟨reply_text, 200⟩, false,
            [now_iso ++ " | " ++ business_id ++ " | USER: " ++ user_message ++
              " | BOT: " ++ reply_text])
        else
          match upstream with
          | .httpError status =>
              .error ("HTTPError " ++ Nat.repr status ++ " for " ++ system_prompt, true)
          | .netError => .error ("requests exception", true)
          | .success text =>
              let reply_text := pyStrip text
              let reply_text :=
                if reply_text = "" then "Sorry, I couldn't generate a reply." else reply_text
              .ok (⟨reply_text, 200⟩, true,
                [now_iso ++ " | " ++ business_id ++ " | USER: " ++ user_message ++
                  " | BOT: " ++ reply_text])

/-- Embedding of the `/chat` handler (src/app.py lines 2882-2970): the whole
body runs inside a `try/except` whose handler prints the exception
server-side and answers the generic apology with status 500. -/
def chat (db : DB) (api_key : String) (upstream : UpstreamResult) (now_iso : String)
    (req : ChatRequest) : ChatResult :=
  match chat_body db api_key upstream now_iso req with
  | .ok (resp, called, log_lines) =>
      { resp := resp, llm_called := called, chat_log := log_lines, err_log := [] }
  | .error (e, called) =>
      { resp := ⟨"Sorry, something went wrong with the AI.", 500⟩, llm_called := called,
        chat_log := [], err_log := ["ERROR in /chat: " ++ e] }

/-- C5: a `POST /chat` with non-blank `business_id` and `message` naming no
existing Business gets the 404 "Business not found." reply, and no upstream
LLM call is attempted, for every credential and upstream behaviour. -/
theorem chat_unknown_business (db : DB) (api_key : String) (upstream : UpstreamResult)
    (now_iso : String) (req : ChatRequest)
    (hbid : pyStrip (req.business_id.getD "") ≠ "")
    (hmsg : pyStrip (req.message.getD "") ≠ "")
    (hnone : find_business db (pyStrip (req.business_id.getD "")) = none) :
    chat db api_key upstream now_iso req =
      { resp := ⟨"Business not found.", 404⟩, llm_called := false,
        chat_log := [], err_log := [] } := by
  have h' : ¬(pyStrip (req.business_id.getD "") = "" ∨ pyStrip (req.message.getD "") = "") := by
    simp [hbid, hmsg]
  simp only [chat, chat_body, hnone, if_neg h']

/-- The chat request of the unknown-tenant scenario. -/
def nopeReq : ChatRequest := { business_id := some "nope", message := some "hi" }

/-- Witness for C5: the scenario from the spec, against the demo store. -/
theorem chat_unknown_business_witness :
    find_business demoDb (pyStrip (nopeReq.business_id.getD "")) = none ∧
    chat demoDb "key" (UpstreamResult.success "hello") "t" nopeReq =
      { resp := ⟨"Business not found.", 404⟩, llm_called := false,
        chat_log := [], err_log := [] } := by
  refine ⟨by decide, ?_⟩
  exact chat_unknown_business demoDb "key" (UpstreamResult.success "hello") "t" nopeReq
    (by decide) (by decide) (by decide)

/-- C6: once a `POST /chat` for an existing tenant reaches the upstream API,
every upstream failure — HTTP error status, network error, or empty returned
text — yields a generic apologetic fallback string as the JSON reply instead
of a propagated exception (the raw error goes only to the server-side log,
which is non-empty exactly on the exception paths), and a missing API
credential short-circuits to the "not configured" reply with no upstream call
attempted. -/
theorem chat_upstream_failure_fallback (db : DB) (now_iso : String) (req : ChatRequest)
    (biz : Business)
    (hbid : pyStrip (req.business_id.getD "") ≠ "")
    (hmsg : pyStrip (req.message.getD "") ≠ "")
    (hbiz : find_business db (pyStrip (req.business_id.getD "")) = some biz) :
    (∀ upstream, chat db "" upstream now_iso req =
        { resp := ⟨"AI is not configured yet.", 200⟩, llm_called := false,
          chat_log := [now_iso ++ " | " ++ pyStrip (req.business_id.getD "") ++ " | USER: " ++
            pyStrip (req.message.getD "") ++ " | BOT: " ++ "AI is not configured yet."],
          err_log := [] }) ∧
    (∀ api_key status, api_key ≠ "" →
        chat db api_key (.httpError status) now_iso req =
          { resp := ⟨"Sorry, something went wrong with the AI.", 500⟩, llm_called := true,
            chat_log := [],
            err_log := ["ERROR in /chat: " ++ ("HTTPError " ++ Nat.repr status ++ " for " ++
              render_system_prompt biz)] }) ∧
    (∀ api_key, api_key ≠ "" →
        chat db api_key .netError now_iso req =
          { resp := ⟨"Sorry, something went wrong with the AI.", 500⟩, llm_called := true,
            chat_log := [], err_log := ["ERROR in /chat: " ++ "requests exception"] }) ∧
    (∀ api_key text, api_key ≠ "" → pyStrip text = "" →
        (chat db api_key (.success text) now_iso req).resp =
          ⟨"Sorry, I couldn't generate a reply.", 200⟩ ∧
        (chat db api_key (.success text) now_iso req).err_log = []) := by
  have h' : ¬(pyStrip (req.business_id.getD "") = "" ∨ pyStrip (req.message.getD "") = "") := by
    simp [hbid, hmsg]
  refine ⟨?_, ?_, ?_, ?_⟩
  · intro upstream
    simp only [chat, chat_body, hbiz, if_neg h']
    rfl
  · intro api_key status hk
    simp only [chat, chat_body, hbiz, if_neg h', if_neg hk]
  · intro api_key hk
    simp only [chat, chat_body, hbiz, if_neg h', if_neg hk]
  · intro api_key text hk ht
    simp only [chat, chat_body, hbiz, if_neg h', if_neg hk, ht]
    refine ⟨?_, ?_⟩ <;> trivial

/-- The chat request of the upstream-failure scenarios. -/
def demoChatReq : ChatRequest := { business_id := some "demo", message := some "hi" }

/-- Witness for C6: at the demo store, an HTTP 500 from the upstream API
produces the generic apology, with the raw error only in the server log. -/
theorem chat_upstream_failure_fallback_witness :
    find_business demoDb (pyStrip (demoChatReq.business_id.getD "")) = some demoBiz ∧
    chat demoDb "key" (UpstreamResult.httpError 500) "t" demoChatReq =
      { resp := ⟨"Sorry, something went wrong with the AI.", 500⟩, llm_called := true,
        chat_log := [],
        err_log := ["ERROR in /chat: " ++ ("HTTPError " ++ Nat.repr 500 ++ " for " ++
          render_system_prompt demoBiz)] } := by
  refine ⟨by decide, ?_⟩
  exact (chat_upstream_failure_fallback demoDb "t" demoChatReq demoBiz (by decide) (by decide)
    (by decide)).2.1 "key" 500 (by decide)

/-- Decimal digit to its character, as in Python's `str(i)` rendering of a
nonnegative integer (the catch-all is unreachable for arguments below 10). -/
def digitChar (n : Nat) : Char :=
  match n with
  | 0 => '0' | 1 => '1' | 2 => '2' | 3 => '3' | 4 => '4'
  | 5 => '5' | 6 => '6' | 7 => '7' | 8 => '8' | 9 => '9'
  | _ => '*'

/-- Decimal rendering of a natural number, written with structural fuel so
that it evaluates by kernel reduction; `natToChars` below always supplies
enough fuel.  The fuel-exhausted branch is unreachable then. -/
def natToCharsAux : Nat → Nat → List Char
  | 0, n => [digitChar n]
  | fuel + 1, n =>
      if n < 10 then [digitChar n]
      else natToCharsAux fuel (n / 10) ++ [digitChar (n % 10)]

/-- Decimal rendering of a natural number as a character list, mirroring the
`f"{base}-{i}"` formatting of the collision counter in
`slugify_business_id`. -/
def natToChars (n : Nat) : List Char := natToCharsAux n n

/-- First two lines of `slugify_business_id` (src/app.py lines 157-158):
`raw = (name or "").strip().lower()` followed by
`slug = "".join(c if c.isalnum() else "-" for c in raw)`.  `Char.isAlphanum`
is the ASCII alphanumerics, on which it agrees with Python's Unicode-aware
`str.isalnum` exactly; Python additionally keeps non-ASCII alphanumerics
(`'é'`, `'中'`) that this model maps to `-`.  The character-set theorem on
`slugify_business_id` is therefore stated for ASCII names, where the
embedding is exact. -/
def slug_mapped (name : String) : List Char :=
  ((pyStrip name).data.map Char.toLower).map (fun c => if c.isAlphanum then c else '-')

/-- Line 159 of src/app.py: `slug = "-".join(filter(None, slug.split("-")))` —
split on the separator, drop empty pieces, re-join with single separators. -/
def slug_joined (name : String) : List Char :=
  List.intercalate ['-'] (((slug_mapped name).splitOn '-').filter (fun p => p ≠ []))

/-- Lines 160-162 of src/app.py: default the slug to `biz` when empty and
truncate the base to 32 characters. -/
def slug_base (name : String) : List Char :=
  (if slug_joined name = [] then ['b', 'i', 'z'] else slug_joined name).take 32

/-- The candidate identifier tried at loop counter `i` by
`slugify_business_id`: the base itself for `i = 1`, and `base ++ "-" ++ str i`
for the later iterations. -/
def candidate_id (base : List Char) (i : Nat) : List Char :=
  if i = 1 then base else base ++ '-' :: natToChars i

/-- The collision-avoidance `while` loop of `slugify_business_id` (src/app.py
lines 166-171), with explicit fuel: as long as the current candidate equals
an existing identifier, increment the counter and retry.  The theorem on
`slugify_business_id` shows that `existing.length + 1` fuel always suffices
to leave the loop. -/
def probe_id (existing : List (List Char)) (base : List Char) : Nat → Nat → List Char
  | 0, i => candidate_id base i
  | fuel + 1, i =>
      if candidate_id base i ∈ existing then probe_id existing base fuel (i + 1)
      else candidate_id base i

/-- Embedding of `slugify_business_id` (src/app.py lines 156-173).  The
database query inside the loop becomes the explicit list `existing` of the
`business_id` values present at the moment of creation. -/
def slugify_business_id (existing : List String) (name : String) : String :=
  let base := slug_base name
  let ex := existing.map String.data
  ⟨probe_id ex base (ex.length + 1) 1⟩

/-- Form fields of a `POST /signup` (src/app.py lines 2627-2636); a missing
form field is `None`, hence `Option`. -/
structure SignupForm where
  owner_name : Option String
  email : Option String
  password : Option String
  business_name : Option String
  phone : Option String
  category : Option String
  address : Option String
  booking_url : Option String
  blurb : Option String
  plan : Option String
deriving Repr, DecidableEq

/-- Result of the `POST /signup` branch of the handler: the rendered message,
whether it is an error, the database after, attempted sends and log lines. -/
structure SignupResult where
  message : String
  error : Bool
  db : DB
  sent : List EmailMsg
  logs : List String
deriving Repr, DecidableEq

/-- Embedding of the `POST /signup` branch (src/app.py lines 2626-2692):
validate, reject duplicate emails, create the Business (with the slugified
identifier) and the owner User — inactive, pending admin approval — then
best-effort notify the admin address. -/
def signup (db : DB) (cfg : EmailCfg) (o : EmailOutcome) (form : SignupForm) : SignupResult :=
  let owner_name := pyStrip (form.owner_name.getD "")
  let email := pyLower (pyStrip (form.email.getD ""))
  let password := pyStrip (form.password.getD "")
  let business_name := pyStrip (form.business_name.getD "")
  let phone := pyStrip (form.phone.getD "")
  let category := pyStrip (form.category.getD "")
  let address := pyStrip (form.address.getD "")
  let booking_url := pyStrip (form.booking_url.getD "")
  let blurb := pyStrip (form.blurb.getD "")
  let plan := pyLower (pyStrip (form.plan.getD ""))
  if owner_name = "" ∨ email = "" ∨ password = "" ∨ business_name = "" then
    { message := "Name, email, password, and business name are required.", error := true,
      db := db, sent := [], logs := [] }
  else
    match find_user_by_email db email with
    | some _ =>
        { message := "An account with this email already exists.", error := true,
          db := db, sent := [], logs := [] }
    | none =>
        let slug := slugify_business_id (db.businesses.map (fun b => b.business_id)) business_name
        let biz : Business :=
          { business_id := slug, name := business_name, hours := "", services := "",
            pricing := "", location := "", contact := phone, faqs := "", blurb := blurb,
            booking_url := booking_url, address := address,
            category := if category = "" then plan else category }
        let user : User :=
          { id := db.next_user_id, email := email,
            password_hash := generate_password_hash password, role := "business",
            business_id := some slug, is_active := false,
            reset_token := none, reset_expires_at := none }
        let db1 : DB :=
          { db with
              businesses := db.businesses ++ [biz],
              users := db.users ++ [user],
              next_user_id := db.next_user_id + 1 }
        let admin_send : SendResult :=
          if cfg.admin_email ≠ "" then
            send_email cfg o cfg.admin_email "New NovuChat signup"
              ("Owner: " ++ owner_name ++ "\nEmail: " ++ email ++ "\nBusiness: " ++
                business_name ++ "\nBusiness ID: " ++ slug ++ "\nPlan: " ++
                (if plan = "" then "not specified" else plan) ++ "\nPhone: " ++ phone ++
                "\nAddress: " ++ address ++ "\nBooking URL: " ++ booking_url ++
                "\nCategory: " ++ category ++
                "\n\nLog into the admin panel to review and approve this account.")
          else { sent := [], logs := [] }
        { message := "Account created! You'll get an email once an admin approves your account.",
          error := false, db := db1, sent := admin_send.sent, logs := admin_send.logs }

/-- Embedding of the `POST /login` branch (src/app.py lines 2697-2721).
`sess` is the session cookie's `user_id` slot before the request; the second
component of the result is that slot afterwards.  Note the handler trims and
lower-cases the email but takes the password verbatim. -/
def login (db : DB) (sess : Option Nat) (email_input password_input : String) :
    Option String × Option Nat :=
  let email := pyLower (pyStrip email_input)
  let password := password_input
  match find_user_by_email db email with
  | none => (some "Invalid email or password.", sess)
  | some user =>
      if ¬ check_password_hash user.password_hash password then
        (some "Invalid email or password.", sess)
      else if user.role = "business" ∧ user.is_active = false then
        (some "Your account is pending approval.", sess)
      else
        (none, some user.id)

/-- Result of the `POST /forgot-password` branch: rendered message, database
after, attempted sends and log lines. -/
structure ForgotResult where
  message : String
  db : DB
  sent : List EmailMsg
  logs : List String
deriving Repr, DecidableEq

/-- Embedding of the `POST /forgot-password` branch (src/app.py lines
2730-2759).  `token` stands for the generated `secrets.token_urlsafe(48)`
value and `now` for `datetime.utcnow()`.  The user-facing message is set
after the lookup on every path. -/
def forgot_password (db : DB) (cfg : EmailCfg) (o : EmailOutcome) (now : Nat)
    (token : String) (email_input : String) : ForgotResult :=
  let email := pyLower (pyStrip email_input)
  let after :=
    match find_user_by_email db email with
    | some user =>
        let expires := now + 3600
        let new_users := update_matching_row db.users (fun u => u.email = email)
          (fun u => { u with reset_token := some token, reset_expires_at := some expires })
        let db1 : DB := { db with users := new_users }
        let send := send_email cfg o user.email "Reset your NovuChat password"
          ("You requested a password reset for your NovuChat account.\n\n" ++
            "Click this link to choose a new password:\n" ++ "/reset-password?token=" ++ token ++
            "\n\nThis link will expire in 1 hour. If you didn't request this, you can ignore this email.")
        (db1, send.sent, send.logs)
    | none => (db, [], [])
  { message := "If an account exists for that email, you'll receive a reset link shortly.",
    db := after.1, sent := after.2.1, logs := after.2.2 }

/-- The rendered reset-password page: message, error flag, and whether the
new-password form is shown. -/
structure ResetPage where
  message : Option String
  error : Bool
  valid : Bool
deriving Repr, DecidableEq

/-- Embedding of the `/reset-password` handler (src/app.py lines 2762-2803).
`token_param` is the `token` query parameter, `is_post` distinguishes the
two methods, `password_param` the posted form field.  A token is looked up
with `User.reset_token == token`; it is "valid" when the row exists and its
expiry lies strictly in the future.  On a successful POST the handler stores
the new hash and clears `reset_token`/`reset_expires_at` — consuming the
token. -/
def reset_password (db : DB) (now : Nat) (token_param : Option String) (is_post : Bool)
    (password_param : Option String) : ResetPage × DB :=
  let token := pyStrip (token_param.getD "")
  if token = "" then (⟨some "Invalid link.", true, false⟩, db)
  else
    let user? := db.users.find? (fun u => u.reset_token = some token)
    let valid :=
      match user? with
      | some u =>
          match u.reset_expires_at with
          | some expires => decide (now < expires)
          | none => false
      | none => false
    if is_post ∧ valid = true then
      let password := pyStrip (password_param.getD "")
      if password = "" then (⟨some "Password cannot be empty.", true, valid⟩, db)
      else
        let new_users := update_matching_row db.users (fun u => u.reset_token = some token)
          (fun u =>
            { u with
                password_hash := generate_password_hash password,
                reset_token := none,
                reset_expires_at := none })
        let db1 : DB := { db with users := new_users }
        (⟨some "Your password has been updated. You can now log in.", false, false⟩, db1)
    else if valid = true then (⟨none, false, true⟩, db)
    else (⟨some "This reset link is invalid or has expired.", true, false⟩, db)

/-- Decomposition of a successful `find?` around the found row, together
with the effect of `update_matching_row` for the same predicate: exactly the
first matching row is rewritten, every other row is kept in place. -/
theorem update_matching_row_decomp (l : List User) (p : User → Bool) (u : User)
    (h : l.find? p = some u) :
    ∃ l1 l2, l = l1 ++ u :: l2 ∧ (∀ v ∈ l1, p v = false) ∧
      ∀ f, update_matching_row l p f = l1 ++ f u :: l2 := by
  induction l with
  | nil => simp [List.find?] at h
  | cons a rest ih =>
      by_cases hp : p a
      · rw [List.find?_cons_of_pos rest hp] at h
        have hau : a = u := by injection h
        subst hau
        refine ⟨[], rest, rfl, ?_, ?_⟩
        · intro v hv
          simp at hv
        · intro f
          simp [update_matching_row, hp]
      · rw [List.find?_cons_of_neg rest hp] at h
        obtain ⟨l1, l2, h1, h2, h3⟩ := ih h
        refine ⟨a :: l1, l2, ?_, ?_, ?_⟩
        · rw [h1]
          rfl
        · intro v hv
          rcases List.mem_cons.mp hv with hva | hvl
          · subst hva
            simpa using hp
          · exact h2 v hvl
        · intro f
          simp [update_matching_row, hp, h3 f]

/-- C8: the `POST /forgot-password` response message is the same fixed
generic text on every run — in particular two runs that differ only in
whether a User row exists for the submitted email produce the same visible
message, so the response does not reveal account existence. -/
theorem forgot_password_uniform_message (db db' : DB) (cfg cfg' : EmailCfg)
    (o o' : EmailOutcome) (now now' : Nat) (tok tok' : String) (e e' : String) :
    (forgot_password db cfg o now tok e).message =
      (forgot_password db' cfg' o' now' tok' e').message := by
  rfl

/-- The signup form used by the signup/login scenario. -/
def testForm : SignupForm :=
  { owner_name := some "Terry", email := some "Terry@Example.com", password := some "hunter2",
    business_name := some "Test Cuts", phone := none, category := none, address := none,
    booking_url := none, blurb := none, plan := none }

/-- C7: a self-service signup with fresh valid fields creates the owner User
row with `is_active = false`; a subsequent login with the same email and the
(trimmed) signup password answers "pending approval" and leaves the session
slot untouched; and in general a business-role account obtains a session on
correct credentials exactly when it is active. -/
theorem signup_then_login_pending (db : DB) (cfg : EmailCfg) (o : EmailOutcome)
    (form : SignupForm) (sess : Option Nat)
    (howner : pyStrip (form.owner_name.getD "") ≠ "")
    (hemail : pyLower (pyStrip (form.email.getD "")) ≠ "")
    (hpw : pyStrip (form.password.getD "") ≠ "")
    (hbiz : pyStrip (form.business_name.getD "") ≠ "")
    (hnew : find_user_by_email db (pyLower (pyStrip (form.email.getD ""))) = none) :
    ((signup db cfg o form).db.users =
      db.users ++
        [{ id := db.next_user_id,
           email := pyLower (pyStrip (form.email.getD "")),
           password_hash := generate_password_hash (pyStrip (form.password.getD "")),
           role := "business",
           business_id := some (slugify_business_id
             (db.businesses.map (fun b => b.business_id)) (pyStrip (form.business_name.getD ""))),
           is_active := false,
           reset_token := none,
           reset_expires_at := none }]) ∧
    (login (signup db cfg o form).db sess (form.email.getD "") (pyStrip (form.password.getD "")) =
      (some "Your account is pending approval.", sess)) ∧
    (∀ (db2 : DB) (sess2 : Option Nat) (e p : String) (v : User),
      find_user_by_email db2 (pyLower (pyStrip e)) = some v → v.role = "business" →
      (login db2 sess2 e p = (none, some v.id) ↔
        (check_password_hash v.password_hash p = true ∧ v.is_active = true))) := by
  have hval : ¬(pyStrip (form.owner_name.getD "") = "" ∨
      pyLower (pyStrip (form.email.getD "")) = "" ∨
      pyStrip (form.password.getD "") = "" ∨ pyStrip (form.business_name.getD "") = "") := by
    simp [howner, hemail, hpw, hbiz]
  have husers : (signup db cfg o form).db.users =
      db.users ++
        [{ id := db.next_user_id,
           email := pyLower (pyStrip (form.email.getD "")),
           password_hash := generate_password_hash (pyStrip (form.password.getD "")),
           role := "business",
           business_id := some (slugify_business_id
             (db.businesses.map (fun b => b.business_id)) (pyStrip (form.business_name.getD ""))),
           is_active := false,
           reset_token := none,
           reset_expires_at := none }] := by
    simp only [signup, if_neg hval, hnew]
  refine ⟨husers, ?_, ?_⟩
  · have hfind : find_user_by_email (signup db cfg o form).db
        (pyLower (pyStrip (form.email.getD ""))) =
        some { id := db.next_user_id,
               email := pyLower (pyStrip (form.email.getD "")),
               password_hash := generate_password_hash (pyStrip (form.password.getD "")),
               role := "business",
               business_id := some (slugify_business_id
                 (db.businesses.map (fun b => b.business_id))
                 (pyStrip (form.business_name.getD ""))),
               is_active := false,
               reset_token := none,
               reset_expires_at := none } := by
      rw [find_user_by_email, husers, List.find?_append]
      rw [find_user_by_email] at hnew
      rw [hnew]
      simp [List.find?]
    simp only [login, hfind, check_password_hash, generate_password_hash]
    simp
  · intro db2 sess2 e p v hfind2 hrole
    simp only [login, hfind2]
    by_cases hck : check_password_hash v.password_hash p = true
    · by_cases hact : v.is_active = true
      · rw [if_neg (by simp [hck]), if_neg (by simp [hrole, hact])]
        simp [hck, hact]
      · rw [if_neg (by simp [hck]),
          if_pos (by exact ⟨hrole, by simpa using hact⟩)]
        simp [hact]
    · rw [if_pos (by simpa using hck)]
      simp [hck]

/-- Witness for C7: the "Test Cuts" scenario — sign up, then try to log in
with the same credentials before approval. -/
theorem signup_then_login_pending_witness :
    find_user_by_email demoDb (pyLower (pyStrip (testForm.email.getD ""))) = none ∧
    login (signup demoDb cfgProvider (EmailOutcome.delivered 200) testForm).db none
        (testForm.email.getD "") (pyStrip (testForm.password.getD "")) =
      (some "Your account is pending approval.", none) := by
  refine ⟨by decide, ?_⟩
  exact (signup_then_login_pending demoDb cfgProvider (EmailOutcome.delivered 200) testForm none
    (by decide) (by decide) (by decide) (by decide) (by decide)).2.1

/-- A user holding a fresh reset token that expires at time 100. -/
def resetUser : User :=
  { id := 5, email := "reset@example.com", password_hash := generate_password_hash "old",
    role := "business", business_id := some "demo", is_active := true,
    reset_token := some "tok123", reset_expires_at := some 100 }

/-- A store holding `resetUser`. -/
def resetDb : DB :=
  { businesses := [demoBiz], users := [resetUser], leads := [], next_user_id := 6 }

/-- C3: a password-reset token is a single-use, time-bounded capability.
Consuming a valid unexpired token with a non-blank new password reports
success and rewrites exactly the holder's row — new password hash, token and
expiry cleared (consumed); afterwards the very same token is never accepted
again, whatever the time, method, or submitted password of the replay, and
the store is unchanged by the replay; and an expired token never authorizes
a password change.  `id`-uniqueness of the rows (the primary key) and
uniqueness of the token among rows are assumed, as the database guarantees
both. -/
theorem reset_token_single_use (db : DB) (now : Nat) (t : String) (u : User)
    (pw : String) (exp : Nat)
    (ht : pyStrip t = t) (hne : t ≠ "")
    (hfind : db.users.find? (fun v => v.reset_token = some t) = some u)
    (hnodup : (db.users.map User.id).Nodup)
    (huniq : ∀ v ∈ db.users, v.reset_token = some t → v = u)
    (hexp : u.reset_expires_at = some exp)
    (hvalid : now < exp)
    (hpw : pyStrip pw ≠ "") :
    ((reset_password db now (some t) true (some pw)).1 =
       ⟨some "Your password has been updated. You can now log in.", false, false⟩) ∧
    (∃ l1 l2, db.users = l1 ++ u :: l2 ∧
       (reset_password db now (some t) true (some pw)).2.users =
         l1 ++ { u with
                   password_hash := generate_password_hash (pyStrip pw),
                   reset_token := none,
                   reset_expires_at := none } :: l2) ∧
    (∀ (now2 : Nat) (is_post2 : Bool) (pw2 : Option String),
       reset_password (reset_password db now (some t) true (some pw)).2 now2 (some t)
           is_post2 pw2 =
         (⟨some "This reset link is invalid or has expired.", true, false⟩,
          (reset_password db now (some t) true (some pw)).2)) ∧
    (∀ now3 : Nat, exp ≤ now3 →
       reset_password db now3 (some t) true (some pw) =
         (⟨some "This reset link is invalid or has expired.", true, false⟩, db)) := by
  obtain ⟨l1, l2, hl, hl1, hupd⟩ :=
    update_matching_row_decomp db.users (fun v => v.reset_token = some t) u hfind
  have hkey : reset_password db now (some t) true (some pw) =
      (⟨some "Your password has been updated. You can now log in.", false, false⟩,
       { db with users := update_matching_row db.users (fun v => v.reset_token = some t) (fun v => { v with password_hash := generate_password_hash (pyStrip pw), reset_token := none, reset_expires_at := none }) }) := by
    simp only [reset_password, Option.getD_some, ht, if_neg hne, hfind, hexp]
    rw [if_pos ⟨by trivial, by simp [hvalid]⟩, if_neg hpw]
  have hstep := hupd (fun v =>
    { v with
        password_hash := generate_password_hash (pyStrip pw),
        reset_token := none,
        reset_expires_at := none })
  have hafter : (reset_password db now (some t) true (some pw)).2.users =
      l1 ++ { u with
                password_hash := generate_password_hash (pyStrip pw),
                reset_token := none,
                reset_expires_at := none } :: l2 := by
    rw [hkey]
    exact hstep
  have hnotok : ∀ v ∈ (reset_password db now (some t) true (some pw)).2.users,
      ¬ (v.reset_token = some t) := by
    rw [hafter]
    intro v hv htok
    rcases List.mem_append.mp hv with hv1 | hv2
    · have := hl1 v hv1
      simp [htok] at this
    · rcases List.mem_cons.mp hv2 with hveq | hv3
      · rw [hveq] at htok
        simp at htok
      · have hvin : v ∈ db.users := by
          rw [hl]
          exact List.mem_append_right _ (List.mem_cons_of_mem _ hv3)
        have hvu : v = u := huniq v hvin htok
        have hmap : ((l1 ++ u :: l2).map User.id).Nodup := by
          rw [← hl]
          exact hnodup
        rw [List.map_append, List.map_cons] at hmap
        have h2 := (List.nodup_append.mp hmap).2.1
        have h3 := (List.nodup_cons.mp h2).1
        exact h3 (List.mem_map.mpr ⟨v, hv3, by rw [hvu]⟩)
  have hfind2 : (reset_password db now (some t) true (some pw)).2.users.find?
      (fun v => v.reset_token = some t) = none := by
    rw [List.find?_eq_none]
    intro v hv
    simpa using hnotok v hv
  refine ⟨by rw [hkey], ⟨l1, l2, hl, hafter⟩, ?_, ?_⟩
  · intro now2 is_post2 pw2
    generalize hgen : (reset_password db now (some t) true (some pw)).2 = db2 at hfind2 ⊢
    simp only [reset_password, Option.getD_some, ht, if_neg hne, hfind2]
    rw [if_neg (by simp), if_neg (by simp)]
  · intro now3 h3
    have hdec : decide (now3 < exp) = false := by simp; omega
    simp only [reset_password, Option.getD_some, ht, if_neg hne, hfind, hexp, hdec]
    rw [if_neg (by simp), if_neg (by simp)]

/-- Witness for C3: a concrete consume-then-replay run against `resetDb`. -/
theorem reset_token_single_use_witness :
    (resetDb.users.find? (fun v => v.reset_token = some "tok123") = some resetUser ∧
     (5 : Nat) < 100) ∧
    ((reset_password resetDb 5 (some "tok123") true (some "newpw")).1 =
       ⟨some "Your password has been updated. You can now log in.", false, false⟩) ∧
    (reset_password (reset_password resetDb 5 (some "tok123") true (some "newpw")).2 6
        (some "tok123") true (some "again") =
      (⟨some "This reset link is invalid or has expired.", true, false⟩,
       (reset_password resetDb 5 (some "tok123") true (some "newpw")).2)) := by
  refine ⟨⟨by decide, by decide⟩, ?_, ?_⟩
  · exact (reset_token_single_use resetDb 5 "tok123" resetUser "newpw" 100 (by decide)
      (by decide) (by decide) (by decide) (by decide) rfl (by decide) (by decide)).1
  · exact (reset_token_single_use resetDb 5 "tok123" resetUser "newpw" 100 (by decide)
      (by decide) (by decide) (by decide) (by decide) rfl (by decide) (by decide)).2.2.1
      6 true (some "again")

/-- Result of the admin approve/deactivate endpoints: whether the row was
found (`found = false` is the "User not found" 404), the database after, and
the approval notification effects. -/
structure AdminActionResult where
  found : Bool
  db : DB
  sent : List EmailMsg
  logs : List String
deriving Repr, DecidableEq

/-- Embedding of `/admin/approve/<user_id>` (src/app.py lines 2844-2864):
look up the row by primary key, 404 when absent, otherwise set
`is_active = True`, commit, and best-effort email the owner. -/
def admin_approve (db : DB) (cfg : EmailCfg) (o : EmailOutcome) (user_id : Nat) :
    AdminActionResult :=
  match db.users.find? (fun v => v.id = user_id) with
  | none => { found := false, db := db, sent := [], logs := [] }
  | some u =>
      let new_users := update_matching_row db.users (fun v => v.id = user_id)
        (fun v => { v with is_active := true })
      let db1 : DB := { db with users := new_users }
      let send := send_email cfg o u.email "Your NovuChat account is approved"
        ("Your NovuChat account has been approved.\n\n" ++
          "You can now log in and access your dashboard.\n\n" ++ "Login here: /login")
      { found := true, db := db1, sent := send.sent, logs := send.logs }

/-- Embedding of `/admin/deactivate/<user_id>` (src/app.py lines 2867-2879):
look up the row by primary key, 404 when absent, otherwise set
`is_active = False` and commit; no notification. -/
def admin_deactivate (db : DB) (user_id : Nat) : AdminActionResult :=
  match db.users.find? (fun v => v.id = user_id) with
  | none => { found := false, db := db, sent := [], logs := [] }
  | some _ =>
      let new_users := update_matching_row db.users (fun v => v.id = user_id)
        (fun v => { v with is_active := false })
      { found := true, db := { db with users := new_users }, sent := [], logs := [] }

/-- With distinct primary keys, updating the first row found by id equals a
pointwise map that rewrites exactly the rows carrying that id. -/
theorem update_matching_row_eq_map (l : List User) (uid : Nat) (f : User → User) (u : User)
    (hnodup : (l.map User.id).Nodup)
    (hfind : l.find? (fun v => v.id = uid) = some u) :
    update_matching_row l (fun v => v.id = uid) f =
      l.map (fun v => if v.id = uid then f v else v) := by
  obtain ⟨l1, l2, hl, hl1, hupd⟩ := update_matching_row_decomp l _ u hfind
  have hu : u.id = uid := by
    have := List.find?_some hfind
    simpa using this
  subst hl
  rw [hupd, List.map_append, List.map_cons]
  have hmap1 : l1.map (fun v => if v.id = uid then f v else v) = l1 := by
    rw [List.map_congr_left, List.map_id]
    intro v hv
    have := hl1 v hv
    simp only [decide_eq_false_iff_not] at this
    simp [this]
  have hl2 : ∀ v ∈ l2, v.id ≠ uid := by
    rw [List.map_append, List.map_cons] at hnodup
    have h2 := (List.nodup_append.mp hnodup).2.1
    have h3 := (List.nodup_cons.mp h2).1
    intro v hv hvid
    exact h3 (List.mem_map.mpr ⟨v, hv, by rw [hvid, hu]⟩)
  have hmap2 : l2.map (fun v => if v.id = uid then f v else v) = l2 := by
    rw [List.map_congr_left, List.map_id]
    intro v hv
    simp [hl2 v hv]
  rw [hmap1, hmap2, if_pos hu]

/-- C10: with distinct primary keys, `/admin/approve` and
`/admin/deactivate` on an existing user id change only that row's
`is_active` field (to `True` resp. `False`) — every other field, every other
User row, and all Business and Lead rows are untouched — and on a
nonexistent id both answer the 404 with no state change at all. -/
theorem admin_toggle_frame (db : DB) (cfg : EmailCfg) (o : EmailOutcome) (user_id : Nat)
    (hnodup : (db.users.map User.id).Nodup) :
    ((db.users.find? (fun v => v.id = user_id)).isSome = true →
      (admin_approve db cfg o user_id).found = true ∧
      (admin_approve db cfg o user_id).db.businesses = db.businesses ∧
      (admin_approve db cfg o user_id).db.leads = db.leads ∧
      (admin_approve db cfg o user_id).db.next_user_id = db.next_user_id ∧
      (admin_approve db cfg o user_id).db.users =
        db.users.map (fun v => if v.id = user_id then { v with is_active := true } else v) ∧
      (admin_deactivate db user_id).found = true ∧
      (admin_deactivate db user_id).db.businesses = db.businesses ∧
      (admin_deactivate db user_id).db.leads = db.leads ∧
      (admin_deactivate db user_id).db.next_user_id = db.next_user_id ∧
      (admin_deactivate db user_id).db.users =
        db.users.map (fun v => if v.id = user_id then { v with is_active := false } else v)) ∧
    (db.users.find? (fun v => v.id = user_id) = none →
      admin_approve db cfg o user_id = { found := false, db := db, sent := [], logs := [] } ∧
      admin_deactivate db user_id = { found := false, db := db, sent := [], logs := [] }) := by
  constructor
  · intro hsome
    obtain ⟨u, hu⟩ := Option.isSome_iff_exists.mp hsome
    have hmap := update_matching_row_eq_map db.users user_id
      (fun v => { v with is_active := true }) u hnodup hu
    have hmap' := update_matching_row_eq_map db.users user_id
      (fun v => { v with is_active := false }) u hnodup hu
    simp only [admin_approve, admin_deactivate, hu]
    refine ⟨by trivial, by trivial, by trivial, by trivial, hmap, by trivial, by trivial,
      by trivial, by trivial, hmap'⟩
  · intro hnone
    simp only [admin_approve, admin_deactivate, hnone]
    exact ⟨by trivial, by trivial⟩

/-- A pending business owner awaiting approval. -/
def pendingUser : User :=
  { id := 7, email := "pend@example.com", password_hash := generate_password_hash "pw",
    role := "business", business_id := some "demo", is_active := false,
    reset_token := none, reset_expires_at := none }

/-- A store with a pending owner and an active owner. -/
def adminDb : DB :=
  { businesses := [demoBiz], users := [pendingUser, shopOwner], leads := [], next_user_id := 8 }

/-- Witness for C10: approving user 7 in `adminDb` flips exactly that row's
`is_active`. -/
theorem admin_toggle_frame_witness :
    ((adminDb.users.map User.id).Nodup ∧
     (adminDb.users.find? (fun v => v.id = 7)).isSome = true) ∧
    (admin_approve adminDb cfgProvider (EmailOutcome.delivered 200) 7).db.users =
      adminDb.users.map (fun v => if v.id = 7 then { v with is_active := true } else v) := by
  refine ⟨⟨by decide, by decide⟩, ?_⟩
  exact ((admin_toggle_frame adminDb cfgProvider (EmailOutcome.delivered 200) 7
    (by decide)).1 (by decide)).2.2.2.2.1

/-- Reading `Char.ofNat` back for codes below the surrogate range. -/
theorem char_toNat_ofNat (n : Nat) (h : n < 0xd800) : (Char.ofNat n).toNat = n := by
  have hv : n.isValidChar := Or.inl h
  simp [Char.ofNat, hv, Char.ofNatAux, Char.toNat, UInt32.toNat]

/-- Arithmetic characterization of `Char.isLower`. -/
theorem char_isLower_iff (c : Char) : c.isLower = true ↔ 97 ≤ c.toNat ∧ c.toNat ≤ 122 := by
  simp only [Char.isLower, Bool.and_eq_true, decide_eq_true_eq]
  exact ⟨fun ⟨h1, h2⟩ => ⟨h1, h2⟩, fun ⟨h1, h2⟩ => ⟨h1, h2⟩⟩

/-- Arithmetic characterization of `Char.isUpper`. -/
theorem char_isUpper_iff (c : Char) : c.isUpper = true ↔ 65 ≤ c.toNat ∧ c.toNat ≤ 90 := by
  simp only [Char.isUpper, Bool.and_eq_true, decide_eq_true_eq]
  exact ⟨fun ⟨h1, h2⟩ => ⟨h1, h2⟩, fun ⟨h1, h2⟩ => ⟨h1, h2⟩⟩

/-- Lower-casing an ASCII capital letter shifts its code by 32. -/
theorem toLower_eq_of_isUpper (c : Char) (h : c.isUpper = true) :
    c.toLower = Char.ofNat (c.toNat + 32) := by
  rw [char_isUpper_iff] at h
  simp [Char.toLower, h.1, h.2]

/-- Lower-casing fixes every character that is not an ASCII capital. -/
theorem toLower_eq_self_of_not_isUpper (c : Char) (h : c.isUpper = false) : c.toLower = c := by
  have h' : ¬(65 ≤ c.toNat ∧ c.toNat ≤ 90) := by
    intro hc
    rw [(char_isUpper_iff c).2 hc] at h
    cases h
  simp only [Char.toLower]
  rw [if_neg]
  intro hc
  exact h' ⟨hc.1, hc.2⟩

/-- The result of `Char.toLower` is never an ASCII capital. -/
theorem toLower_not_isUpper (c : Char) : (c.toLower).isUpper = false := by
  by_cases h : c.isUpper = true
  · rw [toLower_eq_of_isUpper c h]
    rw [char_isUpper_iff c] at h
    rw [Bool.eq_false_iff]
    intro hU
    rw [char_isUpper_iff, char_toNat_ofNat _ (by omega)] at hU
    omega
  · rw [toLower_eq_self_of_not_isUpper c (by simpa using h)]
    simpa using h

/-- A lower-cased character that is alphanumeric is a small letter or a
digit: exactly the shape of the characters that `slugify_business_id`
keeps. -/
theorem alnum_toLower_lower_or_digit (c : Char) (h : (c.toLower).isAlphanum = true) :
    (c.toLower).isLower = true ∨ (c.toLower).isDigit = true := by
  have hu := toLower_not_isUpper c
  revert h hu
  generalize c.toLower = d
  intro h hu
  simp only [Char.isAlphanum, Char.isAlpha, hu, Bool.false_or, Bool.or_eq_true] at h
  exact h

/-- The numeric value of a decimal character string: the left inverse of
`natToChars`, used to show distinct counters yield distinct suffixes. -/
def charsVal (l : List Char) : Nat :=
  l.foldl (fun a c => 10 * a + (c.toNat - 48)) 0

/-- The digit characters decode to their values. -/
theorem digitChar_toNat (n : Nat) (h : n < 10) : (digitChar n).toNat - 48 = n := by
  interval_cases n <;> decide

/-- The digit characters are digits. -/
theorem digitChar_isDigit (n : Nat) (h : n < 10) : (digitChar n).isDigit = true := by
  interval_cases n <;> decide

/-- Decoding inverts the fuelled decimal rendering when the fuel suffices. -/
theorem charsVal_natToCharsAux :
    ∀ fuel n, n ≤ fuel ∨ n < 10 → charsVal (natToCharsAux fuel n) = n := by
  intro fuel
  induction fuel with
  | zero =>
      intro n hn
      have h10 : n < 10 := by omega
      simp [natToCharsAux, charsVal, digitChar_toNat n h10]
  | succ f ih =>
      intro n hn
      rw [natToCharsAux]
      by_cases h : n < 10
      · rw [if_pos h]
        simp [charsVal, digitChar_toNat n h]
      · rw [if_neg h]
        have hih := ih (n / 10) (by omega)
        rw [charsVal] at hih ⊢
        rw [List.foldl_append, hih]
        simp only [List.foldl_cons, List.foldl_nil]
        rw [digitChar_toNat (n % 10) (Nat.mod_lt _ (by omega))]
        omega

/-- Decoding inverts the decimal rendering. -/
theorem charsVal_natToChars (n : Nat) : charsVal (natToChars n) = n :=
  charsVal_natToCharsAux n n (Or.inl (Nat.le_refl n))

/-- The decimal rendering is injective. -/
theorem natToChars_inj (a b : Nat) (h : natToChars a = natToChars b) : a = b := by
  have hc := congrArg charsVal h
  rwa [charsVal_natToChars, charsVal_natToChars] at hc

/-- Every character of the fuelled decimal rendering is a digit when the
fuel suffices. -/
theorem natToCharsAux_digits :
    ∀ fuel n, n ≤ fuel ∨ n < 10 → ∀ c ∈ natToCharsAux fuel n, c.isDigit = true := by
  intro fuel
  induction fuel with
  | zero =>
      intro n hn c hc
      have h10 : n < 10 := by omega
      rw [natToCharsAux, List.mem_singleton] at hc
      rw [hc]
      exact digitChar_isDigit n h10
  | succ f ih =>
      intro n hn c hc
      rw [natToCharsAux] at hc
      by_cases h : n < 10
      · rw [if_pos h, List.mem_singleton] at hc
        rw [hc]
        exact digitChar_isDigit n h
      · rw [if_neg h] at hc
        rcases List.mem_append.mp hc with h1 | h2
        · exact ih (n / 10) (by omega) c h1
        · rw [List.mem_singleton] at h2
          rw [h2]
          exact digitChar_isDigit (n % 10) (Nat.mod_lt _ (by omega))

/-- Every character of the decimal rendering is a digit. -/
theorem natToChars_digits (n : Nat) : ∀ c ∈ natToChars n, c.isDigit = true :=
  natToCharsAux_digits n n (Or.inl (Nat.le_refl n))

/-- Interspersing keeps every original element. -/
theorem mem_intersperse_of_mem {α : Type} (s : α) (l : List α) (x : α) (h : x ∈ l) :
    x ∈ l.intersperse s := by
  induction l with
  | nil => cases h
  | cons a t ih =>
      cases t with
      | nil => simpa using h
      | cons b t2 =>
          rw [List.intersperse_cons_cons]
          rcases List.mem_cons.mp h with rfl | h2
          · exact List.mem_cons_self _ _
          · exact List.mem_cons_of_mem _ (List.mem_cons_of_mem _ (ih h2))

/-- Every member of an interspersed list is the separator or an original
element. -/
theorem mem_of_mem_intersperse {α : Type} (s : α) (l : List α) (x : α)
    (h : x ∈ l.intersperse s) : x = s ∨ x ∈ l := by
  induction l with
  | nil => cases h
  | cons a t ih =>
      cases t with
      | nil =>
          right
          simpa using h
      | cons b t2 =>
          rw [List.intersperse_cons_cons] at h
          rcases List.mem_cons.mp h with rfl | h2
          · right
            exact List.mem_cons_self _ _
          · rcases List.mem_cons.mp h2 with rfl | h3
            · left
              rfl
            · rcases ih h3 with hs | hm
              · left
                exact hs
              · right
                exact List.mem_cons_of_mem _ hm

/-- Every character written by the alnum-or-separator mapping is a
lower-case letter, a digit, or the separator. -/
theorem slug_mapped_chars (name : String) :
    ∀ c ∈ slug_mapped name, c.isLower = true ∨ c.isDigit = true ∨ c = '-' := by
  intro c hc
  simp only [slug_mapped] at hc
  obtain ⟨d, hd, rfl⟩ := List.mem_map.mp hc
  obtain ⟨e, _, rfl⟩ := List.mem_map.mp hd
  by_cases ha : (e.toLower).isAlphanum = true
  · rw [if_pos ha]
    rcases alnum_toLower_lower_or_digit e ha with h | h
    · exact Or.inl h
    · exact Or.inr (Or.inl h)
  · rw [if_neg ha]
    exact Or.inr (Or.inr rfl)

/-- The split-filter-join step only rearranges mapped characters and
separators. -/
theorem slug_joined_chars (name : String) :
    ∀ c ∈ slug_joined name, c.isLower = true ∨ c.isDigit = true ∨ c = '-' := by
  intro c hc
  simp only [slug_joined] at hc
  rw [List.intercalate] at hc
  obtain ⟨q, hq, hcq⟩ := List.mem_flatten.mp hc
  rcases mem_of_mem_intersperse _ _ _ hq with rfl | hqp
  · right
    right
    simpa using hcq
  · have hqsplit : q ∈ (slug_mapped name).splitOn '-' := (List.mem_filter.mp hqp).1
    have hcm : c ∈ slug_mapped name := by
      have hj : ['-'].intercalate ((slug_mapped name).splitOn '-') = slug_mapped name := by
        rw [List.intercalate_splitOn]
      rw [← hj, List.intercalate]
      exact List.mem_flatten.mpr ⟨q, mem_intersperse_of_mem _ _ _ hqsplit, hcq⟩
    exact slug_mapped_chars name c hcm

/-- Every character of the base slug is a lower-case letter, a digit, or the
separator. -/
theorem slug_base_chars (name : String) :
    ∀ c ∈ slug_base name, c.isLower = true ∨ c.isDigit = true ∨ c = '-' := by
  intro c hc
  simp only [slug_base] at hc
  have hc' := List.take_subset _ _ hc
  by_cases hnil : slug_joined name = []
  · rw [if_pos hnil] at hc'
    have hbiz : c = 'b' ∨ c = 'i' ∨ c = 'z' := by simpa using hc'
    rcases hbiz with rfl | rfl | rfl <;> decide
  · rw [if_neg hnil] at hc'
    exact slug_joined_chars name c hc'

/-- The base slug is never empty: the empty join is replaced by `biz` and
truncation to 32 characters keeps at least one character. -/
theorem slug_base_ne_nil (name : String) : slug_base name ≠ [] := by
  simp only [slug_base]
  intro h
  rw [List.take_eq_nil_iff] at h
  rcases h with h | h
  · simp at h
  · by_cases hnil : slug_joined name = []
    · rw [if_pos hnil] at h
      simp at h
    · rw [if_neg hnil] at h
      exact hnil h

/-- Every character of every candidate is a lower-case letter, a digit, or
the separator. -/
theorem candidate_id_chars (base : List Char) (i : Nat)
    (hbase : ∀ c ∈ base, c.isLower = true ∨ c.isDigit = true ∨ c = '-') :
    ∀ c ∈ candidate_id base i, c.isLower = true ∨ c.isDigit = true ∨ c = '-' := by
  intro c hc
  rw [candidate_id] at hc
  by_cases h : i = 1
  · rw [if_pos h] at hc
    exact hbase c hc
  · rw [if_neg h] at hc
    rcases List.mem_append.mp hc with h1 | h2
    · exact hbase c h1
    · rcases List.mem_cons.mp h2 with rfl | h3
      · exact Or.inr (Or.inr rfl)
      · exact Or.inr (Or.inl (natToChars_digits i c h3))

/-- Candidates over a non-empty base are non-empty. -/
theorem candidate_id_ne_nil (base : List Char) (i : Nat) (hbase : base ≠ []) :
    candidate_id base i ≠ [] := by
  rw [candidate_id]
  by_cases h : i = 1
  · rw [if_pos h]
    exact hbase
  · rw [if_neg h]
    simp

/-- Distinct loop counters from 1 produce distinct candidates. -/
theorem candidate_id_inj (base : List Char) (i j : Nat) (_hi : 1 ≤ i) (_hj : 1 ≤ j)
    (h : candidate_id base i = candidate_id base j) : i = j := by
  rw [candidate_id, candidate_id] at h
  by_cases h1 : i = 1 <;> by_cases h2 : j = 1
  · omega
  · rw [if_pos h1, if_neg h2] at h
    have hlen := congrArg List.length h
    simp at hlen
  · rw [if_neg h1, if_pos h2] at h
    have hlen := congrArg List.length h
    simp at hlen
  · rw [if_neg h1, if_neg h2] at h
    have hdrop := congrArg (List.drop base.length) h
    rw [List.drop_left, List.drop_left] at hdrop
    have htail : natToChars i = natToChars j := by
      injection hdrop
    exact natToChars_inj i j htail

/-- The loop returns some candidate. -/
theorem probe_id_is_candidate (ex : List (List Char)) (base : List Char) :
    ∀ fuel i, ∃ j, probe_id ex base fuel i = candidate_id base j := by
  intro fuel
  induction fuel with
  | zero => exact fun i => ⟨i, rfl⟩
  | succ f ih =>
      intro i
      rw [probe_id]
      by_cases h : candidate_id base i ∈ ex
      · rw [if_pos h]
        exact ih (i + 1)
      · rw [if_neg h]
        exact ⟨i, rfl⟩

/-- Pigeonhole for the collision loop: among the candidates for counters
`1, …, length existing + 1` — pairwise distinct — at least one is absent
from the existing identifiers. -/
theorem exists_free_candidate (ex : List (List Char)) (base : List Char) :
    ∃ j, 1 ≤ j ∧ j < 1 + (ex.length + 1) ∧ candidate_id base j ∉ ex := by
  by_contra hcon
  push_neg at hcon
  have hsub : ((List.range' 1 (ex.length + 1)).map (candidate_id base)) ⊆ ex := by
    intro x hx
    obtain ⟨j, hj, rfl⟩ := List.mem_map.mp hx
    have hj' := List.mem_range'_1.mp hj
    exact hcon j hj'.1 hj'.2
  have hnodup : ((List.range' 1 (ex.length + 1)).map (candidate_id base)).Nodup := by
    refine List.Nodup.map_on ?_ (List.nodup_range' 1 (ex.length + 1))
    intro x hx y hy hxy
    exact candidate_id_inj base x y (List.mem_range'_1.mp hx).1 (List.mem_range'_1.mp hy).1 hxy
  have hlen : ((List.range' 1 (ex.length + 1)).map (candidate_id base)).length =
      ex.length + 1 := by
    simp
  have hcard1 := List.toFinset_card_of_nodup hnodup
  have hcard2 : ((List.range' 1 (ex.length + 1)).map (candidate_id base)).toFinset ⊆
      ex.toFinset := by
    intro x hx
    exact List.mem_toFinset.mpr (hsub (List.mem_toFinset.mp hx))
  have hle1 := Finset.card_le_card hcard2
  have hle2 := List.toFinset_card_le ex
  omega

/-- If some in-range candidate is free, the loop's result collides with no
existing identifier. -/
theorem probe_id_not_mem (ex : List (List Char)) (base : List Char) :
    ∀ fuel i, (∃ j, i ≤ j ∧ j < i + fuel ∧ candidate_id base j ∉ ex) →
      probe_id ex base fuel i ∉ ex := by
  intro fuel
  induction fuel with
  | zero =>
      rintro i ⟨j, h1, h2, _⟩
      omega
  | succ f ih =>
      rintro i ⟨j, h1, h2, h3⟩
      rw [probe_id]
      by_cases h : candidate_id base i ∈ ex
      · rw [if_pos h]
        refine ih (i + 1) ⟨j, ?_, by omega, h3⟩
        rcases Nat.eq_or_lt_of_le h1 with rfl | hlt
        · exact absurd h h3
        · omega
      · rw [if_neg h]
        exact h

/-- C4 (amended): for every ASCII name and every set of existing
identifiers at the moment of creation, the generated `business_id` is
non-empty, consists only of lower-case ASCII letters, digits and the `-`
separator (URL-safe), and differs from every existing identifier.  Two
scope notes forced by the code.  First, separators normally occur singly,
but the 32-character truncation can keep a trailing separator which then
becomes adjacent to the separator of the numeric collision suffix — see the
counterexample.  Second, the quantification is over ASCII names because
Python's `str.isalnum`/`str.lower` are Unicode-aware: on a non-ASCII name
the real handler keeps non-ASCII alphanumerics (`"Café"` slugs to `"café"`,
`"中"` to `"中"`), so the id is guaranteed inside this ASCII alphabet only
for ASCII names; on those the embedding's `Char.isAlphanum`/`Char.toLower`
agree with Python exactly.  (Within ASCII, Python's `strip` also removes
`\x0b`/`\x0c`, which `pyStrip` does not; this cannot change the result,
since any whitespace left at the ends is mapped to `-` and dropped by the
split-filter-join step.)  The hypothesis only delimits this faithfulness
domain; the proof does not consume it. -/
theorem slugify_business_id_props (existing : List String) (name : String)
    (_hascii : ∀ c ∈ name.data, c.toNat ≤ 127) :
    slugify_business_id existing name ≠ "" ∧
    (∀ c ∈ (slugify_business_id existing name).data,
      c.isLower = true ∨ c.isDigit = true ∨ c = '-') ∧
    slugify_business_id existing name ∉ existing := by
  obtain ⟨j, hj⟩ := probe_id_is_candidate (existing.map String.data) (slug_base name)
    ((existing.map String.data).length + 1) 1
  refine ⟨?_, ?_, ?_⟩
  · simp only [slugify_business_id]
    intro hemp
    have hdata : probe_id (existing.map String.data) (slug_base name)
        ((existing.map String.data).length + 1) 1 = [] := by
      have := congrArg String.data hemp
      simpa using this
    rw [hj] at hdata
    exact candidate_id_ne_nil (slug_base name) j (slug_base_ne_nil name) hdata
  · intro c hc
    simp only [slugify_business_id] at hc
    rw [hj] at hc
    exact candidate_id_chars (slug_base name) j (slug_base_chars name) c hc
  · simp only [slugify_business_id]
    intro hmem
    have hdatamem : probe_id (existing.map String.data) (slug_base name)
        ((existing.map String.data).length + 1) 1 ∈ existing.map String.data :=
      List.mem_map_of_mem String.data hmem
    obtain ⟨j0, hj1, hj2, hj3⟩ := exists_free_candidate (existing.map String.data) (slug_base name)
    exact probe_id_not_mem (existing.map String.data) (slug_base name)
      ((existing.map String.data).length + 1) 1 ⟨j0, hj1, hj2, hj3⟩ hdatamem

/-- Witness for C4 (amended): the ASCII name "Test Cuts" against a store
already holding `test-cuts` gets a fresh, non-empty id over the slug
alphabet. -/
theorem slugify_business_id_props_witness :
    (∀ c ∈ ("Test Cuts" : String).data, c.toNat ≤ 127) ∧
    (slugify_business_id ["test-cuts"] "Test Cuts" ≠ "" ∧
     (∀ c ∈ (slugify_business_id ["test-cuts"] "Test Cuts").data,
       c.isLower = true ∨ c.isDigit = true ∨ c = '-') ∧
     slugify_business_id ["test-cuts"] "Test Cuts" ∉ ["test-cuts"]) := by
  refine ⟨by decide, ?_⟩
  exact slugify_business_id_props ["test-cuts"] "Test Cuts" (by decide)

/-- Scanner for a pair of adjacent separator characters, the shape that
"single separator characters" forbids. -/
def has_adjacent_dashes : List Char → Bool
  | [] => false
  | [_] => false
  | a :: b :: t => (a = '-' && b = '-') || has_adjacent_dashes (b :: t)

/-- Counterexample to the "single separator characters" part of C4 as
stated: for the 33-character name `"aaaaaaaaaaaaaaaaaaaaaaaaaaaaaaa b"`
(31 `a`s, space, `b`), trimming happens before the 32-character truncation,
so the truncated base ends in a separator — an id `slugify_business_id`
itself produces on an empty store.  If that id already exists, the collision
suffix creates the adjacent separator pair `--` in the generated id. -/
theorem slugify_adjacent_separators :
    slugify_business_id [] "aaaaaaaaaaaaaaaaaaaaaaaaaaaaaaa b" =
      "aaaaaaaaaaaaaaaaaaaaaaaaaaaaaaa-" ∧
    slugify_business_id ["aaaaaaaaaaaaaaaaaaaaaaaaaaaaaaa-"]
        "aaaaaaaaaaaaaaaaaaaaaaaaaaaaaaa b" =
      "aaaaaaaaaaaaaaaaaaaaaaaaaaaaaaa--2" ∧
    has_adjacent_dashes
      (slugify_business_id ["aaaaaaaaaaaaaaaaaaaaaaaaaaaaaaa-"]
        "aaaaaaaaaaaaaaaaaaaaaaaaaaaaaaa b").data = true := by
  refine ⟨by decide, by decide, by decide⟩

end LocalChat
